import Mathlib

set_option maxRecDepth 8000

/-!
Verification of the Elements ECSS engine core (pyECSS Component classes and
feature wrappers) against its natural-language specification.

Python code is embedded shallowly: component objects become Lean structures,
object references become natural-number addresses, Python dicts of keyword
arguments become partial maps, numeric state becomes `ℤ`/`ℚ` (Python integers
and floats are modelled exactly where the code only adds, subtracts and
divides), and fallible arithmetic (Python `ZeroDivisionError`) is modelled
with `Option`.  Parts of the repository that are referenced but whose files
are not available (the `Entity`/`System`/traversal layer and the quaternion
module) are modelled from the specification; each such definition carries a
doc comment starting with "Modelled from the spec:".
-/

namespace Elements

/-! ## Animation scalar state (`AnimationComponents.animation_loop`, Component.py 687-718)

The scalar state the loop mutates is the accumulator `time_add` and the
direction flag `flag`.  The pose-matrix writes (`self.MM`) do not feed back
into this state.  One call of `animation_loop` performs, in order: the flag
update, the (state-irrelevant) interpolation step, and the accumulator
update. -/

/-- Scalar state of an `AnimationComponents` instance: the elapsed-time
accumulator `time_add` and the playback direction flag `flag`. -/
structure AnimState where
  time_add : ℤ
  flag : Bool
deriving DecidableEq, Repr

/-- One call of `AnimationComponents.animation_loop` (Component.py 687-718),
restricted to the scalar state it mutates.  `key3None` says whether the third
keyframe argument was `None`; `astart` is the `anition_start` field. -/
def animation_loop_scalar (tempo t0 t1 t2 : ℤ) (key3None astart : Bool)
    (s : AnimState) : AnimState :=
  let flag1 :=
    if (t1 ≤ s.time_add ∧ key3None = true) ∨ t2 ≤ s.time_add then false
    else if s.time_add ≤ t0 then true
    else s.flag
  let ta1 :=
    if flag1 = true then (if astart = true then s.time_add + tempo else s.time_add)
    else (if astart = true then s.time_add - tempo else s.time_add)
  { time_add := ta1, flag := flag1 }

/-- The configuration of claim C2: tempo 2, time boundaries [0, 100, 200],
third keyframe absent, `anition_start` true. -/
def pingpong_step : AnimState → AnimState :=
  animation_loop_scalar 2 0 100 200 true true

/-- `n` repeated calls of `animation_loop` starting from accumulator 0,
direction forward. -/
def pingpong_iter : ℕ → AnimState
  | 0 => { time_add := 0, flag := true }
  | n + 1 => pingpong_step (pingpong_iter n)

/-! ## Blend factor (`animation_for_loop`, Component.py 720-721)

`animation_for_loop` computes `self.alpha = (self.time_add - t0)/abs(t1 - t0)`.
In Python this raises `ZeroDivisionError` when `abs(t1 - t0) == 0`; the
embedding returns `none` in that case. -/

/-- The blend factor `alpha` computed by `animation_for_loop`; `none` models
Python's `ZeroDivisionError` when the segment is degenerate. -/
def alpha_of (time_add t0 t1 : ℚ) : Option ℚ :=
  if |t1 - t0| = 0 then none else some ((time_add - t0) / |t1 - t0|)

/-- Guard under which `animation_loop` (Component.py 697-698) invokes
`animation_for_loop` on the first segment `[time 0, time 1]`. -/
def seg1_invoked (time_add t0 t1 : ℚ) : Prop :=
  t0 ≤ time_add ∧ time_add ≤ t1

/-- Guard under which `animation_loop` (Component.py 699-700) invokes
`animation_for_loop` on the second segment `(time 1, time 2]`; it also
requires the third keyframe to be present (`key3None = false`). -/
def seg2_invoked (time_add t1 t2 : ℚ) (key3None : Bool) : Prop :=
  t1 < time_add ∧ time_add ≤ t2 ∧ key3None = false

/-! ## RenderMesh (Component.py 491-532) and vertex-attribute attachment

`RenderMesh` stores `vertex_attributes` as a plain Python list of arrays; the
call sites (bezier_base.py 88-89, plotting_base.py 99-100) attach an array by
`mesh.vertex_attributes.append(arr)`.  An attribute array is a list of rows;
a row is a list of rationals. -/

/-- State of a `RenderMesh` component: the list of vertex-attribute arrays and
the index list.  Each attribute array is a list of rows. -/
structure RenderMeshState where
  vertex_attributes : List (List (List ℚ))
  vertex_index : List (List ℕ)
deriving DecidableEq, Repr

/-- `RenderMesh.__init__` (Component.py 497-516): a falsy (`None` or empty)
argument yields an empty list, otherwise the argument is stored. -/
def renderMesh_init_lists (va : List (List (List ℚ))) (vi : List (List ℕ)) :
    RenderMeshState :=
  { vertex_attributes := if va.isEmpty then [] else va,
    vertex_index := if vi.isEmpty then [] else vi }

/-- Attaching one vertex-attribute array:
`mesh.vertex_attributes.append(arr)` (bezier_base.py 88-89).  It appends
unconditionally; there is no validation code on this path. -/
def attach_vertex_attributes (m : RenderMeshState) (arr : List (List ℚ)) :
    RenderMeshState :=
  { m with vertex_attributes := m.vertex_attributes ++ [arr] }

/-- The row-count invariant of the spec: all vertex-attribute arrays attached
to one mesh share the same row count. -/
def sameRowCount (m : RenderMeshState) : Prop :=
  ∀ a ∈ m.vertex_attributes, ∀ b ∈ m.vertex_attributes, a.length = b.length

/-! ## 2D plot data (`generate_plot2d_data`, plotting_base.py 142-166)

`x` is a vector of `func_detail` sample abscissas and `y` the corresponding
ordinates; both are abstracted as functions of the sample index.  The loop
`for i in range(0, len(x)-2)` appends the two endpoints of segment
`(i, i+1)`. -/

/-- The vertex list built by `generate_plot2d_data`: for each
`i ∈ range (func_detail - 2)`, the two rows `[x i, y i, 0, 1]` and
`[x (i+1), y (i+1), 0, 1]`. -/
def plot2d_vertices (xs ys : ℕ → ℚ) (func_detail : ℕ) : List (List ℚ) :=
  (List.range (func_detail - 2)).flatMap
    (fun i => [[xs i, ys i, 0, 1], [xs (i + 1), ys (i + 1), 0, 1]])

/-- The color list built by `generate_plot2d_data`: one fixed RGBA row per
vertex. -/
def plot2d_colors (xs ys : ℕ → ℚ) (func_detail : ℕ) : List (List ℚ) :=
  List.replicate (plot2d_vertices xs ys func_detail).length [1/2, 0, 1, 1]

/-- The index list built by `generate_plot2d_data`: `range(len(vertices))`. -/
def plot2d_indices (xs ys : ℕ → ℚ) (func_detail : ℕ) : List ℕ :=
  List.range (plot2d_vertices xs ys func_detail).length

/-! ## Component construction (Component.py 41-77 and the variant `__init__`s)

Python object references are modelled as natural-number addresses: a
constructor receives the address `self` of the object being built, and the
assignment `self._parent = self` becomes `parent := some self`.  A parent of
`None` would be `none`.  `uuid.uuid1().int` is modelled as an externally
supplied fresh number `uuid1`. -/

/-- 4x4 matrices over the rationals, the value type of the stored
transform matrices. -/
abbrev Mat4Q := Matrix (Fin 4) (Fin 4) ℚ

/-- Modelled from the spec: `util.identity()` (Elements/pyECSS/utilities.py is
not under src); the 4x4 identity matrix. -/
def util_identity : Mat4Q := 1

/-- The Python class name of `BasicTransform`, the default for its name and
type fields. -/
def classBasicTransform : String := "BasicTransform"

/-- The Python class name of `Camera`. -/
def classCamera : String := "Camera"

/-- The Python class name of `RenderMesh`. -/
def classRenderMesh : String := "RenderMesh"

/-- The Python class name of `Keyframe`. -/
def classKeyframe : String := "Keyframe"

/-- The Python class name of `AnimationComponents`. -/
def classAnimationComponents : String := "AnimationComponents"

/-- The fields `Component.__init__` (Component.py 41-77) writes: name and type
default to the class name, id defaults to a fresh uuid, `_parent` is set to
the object itself, `_children` to `None`. -/
structure ComponentBase where
  name : String
  type : String
  id : ℕ
  parent : Option ℕ
  children : Option (List ℕ)
deriving DecidableEq, Repr

/-- `Component.__init__` (Component.py 41-77). `self` is the address of the
object under construction; note line 74: `self._parent = self`. -/
def component_init (self : ℕ) (className : String)
    (name type : Option String) (id : Option ℕ) (uuid1 : ℕ) : ComponentBase :=
  { name := name.getD className,
    type := type.getD className,
    id := id.getD uuid1,
    parent := some self,
    children := none }

/-- State of a `BasicTransform` component (Component.py 292-315). -/
structure BasicTransformState where
  base : ComponentBase
  trs : Mat4Q
  l2world : Mat4Q
  l2cam : Mat4Q
deriving DecidableEq, Repr

/-- `BasicTransform.__init__` (Component.py 303-315): runs the base init,
defaults `trs` to the identity, sets `l2world`/`l2cam` to the identity, then
re-assigns `self._parent = self` and `self._children = []`. -/
def basicTransform_init (self : ℕ) (name type : Option String)
    (id : Option ℕ) (uuid1 : ℕ) (trs : Option Mat4Q) : BasicTransformState :=
  { base := { component_init self classBasicTransform name type id uuid1 with
              parent := some self, children := some [] },
    trs := trs.getD util_identity,
    l2world := util_identity,
    l2cam := util_identity }

/-- State of a `Camera` component (Component.py 418-452). -/
structure CameraState where
  base : ComponentBase
  projMat : Mat4Q
  root2cam : Mat4Q
deriving DecidableEq, Repr

/-- Modelled from the spec: `util.ortho(left, right, bottom, top, near, far)`
(utilities.py is not under src); the standard orthographic projection
matrix. -/
def util_ortho (l r b t n f : ℚ) : Mat4Q :=
  !![2 / (r - l), 0, 0, -(r + l) / (r - l);
     0, 2 / (t - b), 0, -(t + b) / (t - b);
     0, 0, -2 / (f - n), -(f + n) / (f - n);
     0, 0, 0, 1]

/-- `Camera.__init__` (Component.py 428-436): base init, projection matrix
from the argument or the default orthographic frustum, `root2cam` set to the
identity, then `self._parent = self`. -/
def camera_init (self : ℕ) (projMatrix : Option Mat4Q)
    (name type : Option String) (id : Option ℕ) (uuid1 : ℕ)
    (left right bottom top near far : ℚ) : CameraState :=
  { base := { component_init self classCamera name type id uuid1 with
              parent := some self },
    projMat := projMatrix.getD (util_ortho left right bottom top near far),
    root2cam := util_identity }

/-- `RenderMesh.__init__` (Component.py 497-516) together with the base
fields: base init, `self._parent = self`, falsy vertex arguments replaced by
empty lists. -/
def renderMesh_init (self : ℕ) (name type : Option String) (id : Option ℕ)
    (uuid1 : ℕ) (va : List (List (List ℚ))) (vi : List (List ℕ)) :
    ComponentBase × RenderMeshState :=
  ({ component_init self classRenderMesh name type id uuid1 with
     parent := some self },
   renderMesh_init_lists va vi)

/-- State of a `Keyframe` component (Component.py 591-608): a list of pose
matrix arrays. -/
structure KeyframeState where
  base : ComponentBase
  array_MM : List (List Mat4Q)
deriving DecidableEq, Repr

/-- `Keyframe.__init__` (Component.py 593-600): base init,
`self._parent = self`, falsy `array_MM` replaced by the empty list. -/
def keyframe_init (self : ℕ) (name type : Option String) (id : Option ℕ)
    (uuid1 : ℕ) (array_MM : List (List Mat4Q)) : KeyframeState :=
  { base := { component_init self classKeyframe name type id uuid1 with
              parent := some self },
    array_MM := if array_MM.isEmpty then [] else array_MM }

/-- Scalar and configuration fields of an `AnimationComponents` instance
(Component.py 656-676); `anition_start` keeps the field's spelling from the
source. -/
structure AnimationComponentsState where
  base : ComponentBase
  alpha : ℚ
  tempo : ℚ
  time_add : ℚ
  anition_start : Bool
  animKeys : ℕ
  inter : String
  time : List ℚ
  flag : Bool
  MM : List Mat4Q
  bones : List ℚ
deriving DecidableEq, Repr

/-- `AnimationComponents.__init__` (Component.py 658-676): base init,
`self._parent = self`, scalar fields stored, `MM` set to the empty list,
falsy `bones` replaced by the empty list. -/
def animationComponents_init (self : ℕ) (name type : Option String)
    (id : Option ℕ) (uuid1 : ℕ) (bones : List ℚ) (alpha tempo time_add : ℚ)
    (animation_start : Bool) (anim_keys : ℕ) (time : List ℚ) (flag : Bool)
    (inter : String) : AnimationComponentsState :=
  { base := { component_init self classAnimationComponents name type id uuid1 with
              parent := some self },
    alpha := alpha,
    tempo := tempo,
    time_add := time_add,
    anition_start := animation_start,
    animKeys := anim_keys,
    inter := inter,
    time := time,
    flag := flag,
    MM := [],
    bones := if bones.isEmpty then [] else bones }

/-! ## `update` keyword semantics (C8)

Python keyword arguments form a dict, modelled as a partial map from key
strings to matrices.  `BasicTransform.update` (Component.py 363-382) tests
membership of the keys "l2world", "trs", "l2cam" in order; `Camera.update`
(Component.py 454-461) tests "root2cam". -/

/-- A Python `**kwargs` dict with matrix values. -/
abbrev Kwargs := String → Option Mat4Q

/-- The key string `arg1 = "l2world"` of `BasicTransform.update`. -/
def btArg1 : String := "l2world"

/-- The key string `arg2 = "trs"` of `BasicTransform.update`. -/
def btArg2 : String := "trs"

/-- The key string `arg3 = "l2cam"` of `BasicTransform.update`. -/
def btArg3 : String := "l2cam"

/-- The key string `arg1 = "root2cam"` of `Camera.update`. -/
def camArg1 : String := "root2cam"

/-- `BasicTransform.update` (Component.py 363-382): three sequential
membership tests, each storing the dict value into the matching field. -/
def basicTransform_update (c : BasicTransformState) (kwargs : Kwargs) :
    BasicTransformState :=
  let c1 := match kwargs btArg1 with
    | some m => { c with l2world := m }
    | none => c
  let c2 := match kwargs btArg2 with
    | some m => { c1 with trs := m }
    | none => c1
  match kwargs btArg3 with
  | some m => { c2 with l2cam := m }
  | none => c2

/-- `Camera.update` (Component.py 454-461): one membership test on
"root2cam". -/
def camera_update (c : CameraState) (kwargs : Kwargs) : CameraState :=
  match kwargs camArg1 with
  | some m => { c with root2cam := m }
  | none => c

/-! ## Visitor dispatch (C3)

`accept` methods in Component.py call fixed-name handler methods on the
system object.  The system side (Elements/pyECSS/System.py) is not under src;
per the spec (§4.1, §7) a system that has no handler for a component variant
absorbs the dispatch as a no-op.  A handler may mutate both the component
and the system, so a handler is a function on the pair of states; an absent
handler is `none`. -/

/-- The handler methods a system object may carry, one `Option` field per
handler name appearing in the `accept` methods of Component.py.  `C` is the
component state, `S` the system state. -/
structure SystemHandlers (C S : Type) where
  apply2GATransform : Option (C → S → C × S)
  apply2BasicTransform : Option (C → S → C × S)
  applyCamera2BasicTransform : Option (C → S → C × S)
  apply2Camera : Option (C → S → C × S)
  apply2RenderMesh : Option (C → S → C × S)

/-- Modelled from the spec: one duck-typed call `system.<handler>(component)`
(System.py is not under src); a present handler runs, an absent handler is a
no-op by the visitor contract of spec §4.1/§7. -/
def dispatch {C S : Type} (h : Option (C → S → C × S)) (c : C) (s : S) : C × S :=
  match h with
  | some f => f c s
  | none => (c, s)

/-- `BasicTransform.accept` (Component.py 384-394): calls
`apply2GATransform`, `apply2BasicTransform`, `applyCamera2BasicTransform` in
order. -/
def basicTransform_accept {C S : Type} (sys : SystemHandlers C S) (c : C) (s : S) :
    C × S :=
  let r1 := dispatch sys.apply2GATransform c s
  let r2 := dispatch sys.apply2BasicTransform r1.1 r1.2
  dispatch sys.applyCamera2BasicTransform r2.1 r2.2

/-- `Camera.accept` (Component.py 463-475): calls `apply2Camera`. -/
def camera_accept {C S : Type} (sys : SystemHandlers C S) (c : C) (s : S) : C × S :=
  dispatch sys.apply2Camera c s

/-- `RenderMesh.accept` (Component.py 539-546): calls `apply2RenderMesh`. -/
def renderMesh_accept {C S : Type} (sys : SystemHandlers C S) (c : C) (s : S) :
    C × S :=
  dispatch sys.apply2RenderMesh c s

/-- `Keyframe.accept` (Component.py 633-635): the body is `pass`. -/
def keyframe_accept {C S : Type} (_sys : SystemHandlers C S) (c : C) (s : S) :
    C × S :=
  (c, s)

/-- `AnimationComponents.accept` (Component.py 742-743): the body is `pass`. -/
def animationComponents_accept {C S : Type} (_sys : SystemHandlers C S) (c : C)
    (s : S) : C × S :=
  (c, s)

/-- `BasicTransformDecorator.accept` (Component.py 587-588): the body is
`pass`. -/
def basicTransformDecorator_accept {C S : Type} (_sys : SystemHandlers C S)
    (c : C) (s : S) : C × S :=
  (c, s)

/-! ## Entity child access and the drain idiom (C7)

`Entity` (Elements/pyECSS/Entity.py) is not under src; only its child-list
operations matter here and they are modelled from the spec (§4.2).  An
entity's ordered child list is a Lean list of child handles. -/

/-- Modelled from the spec: `Entity.getChild(index)` (Entity.py is not under
src) — 1-based index access into the ordered child list, returning the
none-sentinel when the index is out of range. -/
def entity_getChild {A : Type} (children : List A) (index : ℕ) : Option A :=
  if h : 1 ≤ index ∧ index ≤ children.length then
    some (children.get ⟨index - 1, by omega⟩)
  else none

/-- Modelled from the spec: `Entity.remove(child)` (Entity.py is not under
src) — severs the link to the given child, removing its first occurrence
from the ordered child list. -/
def entity_remove {A : Type} [DecidableEq A] (children : List A) (c : A) :
    List A :=
  children.erase c

/-- `remove_entity_children` (bezier_base.py 205-213, plotting_base.py
243-250): `while entity.getChild(1) is not None: entity.remove(entity.getChild(1))`. -/
def remove_entity_children {A : Type} [DecidableEq A] (children : List A) :
    List A :=
  match hc : entity_getChild children 1 with
  | none => children
  | some c => remove_entity_children (entity_remove children c)
termination_by children.length
decreasing_by
  simp only [entity_getChild] at hc
  split at hc
  · rename_i h
    cases hc
    have hmem := List.get_mem children (1 - 1) (by omega)
    simp only [entity_remove]
    have := List.length_erase_of_mem hmem
    omega
  · cases hc

/-! ## Pre-order transform propagation (C1)

The entity tree, the `traverse_visit` entry point and the
`TransformSystem` live in files that are not under src; they are modelled
from the spec (§4.3).  Only the `trs` matrix of each entity's Transform
component feeds the computation. -/

/-- Modelled from the spec: an entity tree, each entity carrying a Transform
component with its local TRS matrix, children in attachment order. -/
inductive SceneTree where
  | node (trs : Mat4Q) (children : List SceneTree)

/-- The local TRS matrix of the tree's root entity. -/
def SceneTree.trsOf : SceneTree → Mat4Q
  | .node t _ => t

/-- An entity tree annotated with the computed local-to-world matrices. -/
inductive PropTree where
  | node (trs l2world : Mat4Q) (children : List PropTree)

/-- The local TRS matrix at the root of an annotated tree. -/
def PropTree.trsOf : PropTree → Mat4Q
  | .node t _ _ => t

/-- The computed local-to-world matrix at the root of an annotated tree. -/
def PropTree.l2worldOf : PropTree → Mat4Q
  | .node _ w _ => w

/-- The annotated child subtrees, in attachment order. -/
def PropTree.childrenOf : PropTree → List PropTree
  | .node _ _ cs => cs

mutual

/-- Modelled from the spec: one full pre-order traversal with the
transform-propagation system (spec §4.3; `traverse_visit` and
`TransformSystem` are not under src).  The visited entity's local-to-world
matrix is the matrix product of the parent's already-computed local-to-world
matrix `parentL2w` and the entity's local TRS matrix; the children are then
visited with that freshly computed matrix as their parent matrix
(parent-before-child order). -/
def propagate (parentL2w : Mat4Q) : SceneTree → PropTree
  | .node trs cs => .node trs (parentL2w * trs) (propagateList (parentL2w * trs) cs)

/-- Pre-order visit of a child list, in attachment order. -/
def propagateList (parentL2w : Mat4Q) : List SceneTree → List PropTree
  | [] => []
  | c :: cs => propagate parentL2w c :: propagateList parentL2w cs

end

/-- Modelled from the spec: the full-tree traversal entry point.  The root
has no parent transform, so it is visited with the identity as parent
matrix and its local-to-world equals its own TRS. -/
def propagateRoot (t : SceneTree) : PropTree :=
  propagate 1 t

/-- `PropTree.Occurs s t`: the node `s` occurs in the tree `t` (as `t` itself
or inside some child's subtree). -/
inductive PropTree.Occurs : PropTree → PropTree → Prop
  | refl (t : PropTree) : Occurs t t
  | child {s c p : PropTree} : c ∈ p.childrenOf → Occurs s c → Occurs s p

/-- A two-entity demonstration scene: a root with identity TRS and one
child with identity TRS. -/
def demoChild : SceneTree := .node 1 []

/-- The root of the demonstration scene. -/
def demoRoot : SceneTree := .node 1 [demoChild]

/-! ## Animation pose blending (C5)

`animation_for_loop` (Component.py 720-734) writes into `self.MM[i]` the
rotation block `[:3, :3]` and translation column `[:3, 3]` obtained by
interpolating between the two keyframes' quaternion-decomposed rotations and
translations.  The quaternion module `Elements.pyECSS.GA.quaternion` is not
under src; its operations are modelled from the spec over the reals. -/

/-- 4x4 real matrices: the pose matrices manipulated by the blender. -/
abbrev Mat4R := Matrix (Fin 4) (Fin 4) ℝ

/-- 3x3 real matrices: rotation blocks. -/
abbrev Mat3R := Matrix (Fin 3) (Fin 3) ℝ

/-- Quaternions as 4-vectors of reals, components (w, x, y, z). -/
abbrev Quat := Fin 4 → ℝ

/-- Translation vectors. -/
abbrev Vec3 := Fin 3 → ℝ

/-- The Euclidean inner product of two quaternions. -/
noncomputable def quat_dot (q1 q2 : Quat) : ℝ := ∑ i, q1 i * q2 i

/-- The interpolation angle between two quaternions. -/
noncomputable def quat_angle (q1 q2 : Quat) : ℝ := Real.arccos (quat_dot q1 q2)

/-- Modelled from the spec: `quat.quaternion_lerp` (GA/quaternion.py is not
under src) — linear interpolation `(1 - t) * q1 + t * q2` componentwise. -/
noncomputable def quaternion_lerp (q1 q2 : Quat) (t : ℝ) : Quat :=
  fun i => (1 - t) * q1 i + t * q2 i

/-- Modelled from the spec: `quat.quaternion_slerp` (GA/quaternion.py is not
under src) — spherical-linear interpolation along the angle between the
quaternions, falling back to linear interpolation when the angle is
degenerate. -/
noncomputable def quaternion_slerp (q1 q2 : Quat) (t : ℝ) : Quat :=
  if Real.sin (quat_angle q1 q2) = 0 then quaternion_lerp q1 q2 t
  else fun i =>
    Real.sin ((1 - t) * quat_angle q1 q2) / Real.sin (quat_angle q1 q2) * q1 i +
    Real.sin (t * quat_angle q1 q2) / Real.sin (quat_angle q1 q2) * q2 i

/-- Modelled from the spec: `quat.Quaternion.from_rotation_matrix`
(GA/quaternion.py is not under src) — principal-branch quaternion extraction
from the rotation block of a pose matrix. -/
noncomputable def from_rotation_matrix (m : Mat4R) : Quat :=
  let w := Real.sqrt (max 0 (1 + m 0 0 + m 1 1 + m 2 2)) / 2
  ![w, (m 2 1 - m 1 2) / (4 * w), (m 0 2 - m 2 0) / (4 * w),
    (m 1 0 - m 0 1) / (4 * w)]

/-- Modelled from the spec: `quat.Quaternion.to_rotation_matrix`
(GA/quaternion.py is not under src) — the standard rotation matrix of a
quaternion (w, x, y, z). -/
noncomputable def to_rotation_matrix (q : Quat) : Mat3R :=
  !![1 - 2 * (q 2 ^ 2 + q 3 ^ 2), 2 * (q 1 * q 2 - q 3 * q 0), 2 * (q 1 * q 3 + q 2 * q 0);
     2 * (q 1 * q 2 + q 3 * q 0), 1 - 2 * (q 1 ^ 2 + q 3 ^ 2), 2 * (q 2 * q 3 - q 1 * q 0);
     2 * (q 1 * q 3 - q 2 * q 0), 2 * (q 2 * q 3 + q 1 * q 0), 1 - 2 * (q 1 ^ 2 + q 2 ^ 2)]

/-- `Keyframe.translate` (Component.py 610-617) for one pose matrix: the
column `[:3, 3]`. -/
noncomputable def translate_of (m : Mat4R) : Vec3 := fun i => m i.castSucc 3

/-- `Keyframe.rotate` (Component.py 619-627) for one pose matrix: its
quaternion decomposition. -/
noncomputable def rotate_of (m : Mat4R) : Quat := from_rotation_matrix m

/-- `AnimationComponents.lerp` (Component.py 736-737) applied to translation
vectors: `(1 - t) * a + t * b`. -/
noncomputable def anim_lerp (a b : Vec3) (t : ℝ) : Vec3 :=
  fun i => (1 - t) * a i + t * b i

/-- The effect of `MM[i][:3, :3] = R` followed by `MM[i][:3, 3] = T` on a
base matrix. -/
noncomputable def set_pose (base : Mat4R) (rot : Mat3R) (tr : Vec3) : Mat4R :=
  Matrix.of fun i j =>
    if hi : (i : ℕ) < 3 then
      if hj : (j : ℕ) < 3 then rot ⟨i, hi⟩ ⟨j, hj⟩ else tr ⟨i, hi⟩
    else base i j

/-- `animation_for_loop` (Component.py 720-734): entry `i` of `self.MM` after
the loop, starting from the identity fill written by `animation_loop`
(line 689).  `inter` selects the branch by the source's string comparison;
both branches interpolate the translation with `self.lerp`. -/
noncomputable def animation_for_loop_MM (inter : String) (time_add t0 t1 : ℝ)
    {n : ℕ} (k1 k2 : Fin n → Mat4R) : Fin n → Mat4R :=
  let alpha := (time_add - t0) / |t1 - t0|
  fun i =>
    if inter = "LERP" then
      set_pose 1
        (to_rotation_matrix (quaternion_lerp (rotate_of (k1 i)) (rotate_of (k2 i)) alpha))
        (anim_lerp (translate_of (k1 i)) (translate_of (k2 i)) alpha)
    else
      set_pose 1
        (to_rotation_matrix (quaternion_slerp (rotate_of (k1 i)) (rotate_of (k2 i)) alpha))
        (anim_lerp (translate_of (k1 i)) (translate_of (k2 i)) alpha)

/-- The SLERP interpolation mode string, the `__init__` default of
`AnimationComponents.inter`. -/
def interSLERP : String := "SLERP"

/-- A kwargs dict carrying only a key that no `update` method recognizes. -/
def kwUnrecognized : Kwargs :=
  fun k => if k = "unknown_key" then some util_identity else none

/-- The empty kwargs dict (a call `update()` with no keyword arguments). -/
def kwEmpty : Kwargs := fun _ => none

/-- A freshly constructed `BasicTransform` with all-default arguments, at
address 0. -/
def btDemo : BasicTransformState := basicTransform_init 0 none none none 0 none

/-- A freshly constructed `Camera` with the default orthographic frustum, at
address 0. -/
def camDemo : CameraState :=
  camera_init 0 none none none none 0 (-100) 100 (-100) 100 1 100

/-- A system object carrying none of the handler methods named by the
`accept` implementations. -/
def sysNone : SystemHandlers ℕ ℕ := ⟨none, none, none, none, none⟩

/-!
# Theorems
-/

/-- C2: with tempo 2, time boundaries [0, 100, 200] and the third keyframe
absent, repeated `animation_loop` calls starting from accumulator 0 going
forward reach accumulator exactly 100 after exactly 50 ticks; the call made
at that point (tick 51) flips the direction flag to backward; 50 ticks after
reaching 100 (tick 100) the accumulator is back at exactly 0, and the call
made there (tick 101) flips the flag forward again; the ping-pong cycle then
repeats with period 100 ticks. -/
theorem animation_pingpong_cycle :
    pingpong_iter 50 = { time_add := 100, flag := true } ∧
    pingpong_iter 51 = { time_add := 98, flag := false } ∧
    pingpong_iter 100 = { time_add := 0, flag := false } ∧
    pingpong_iter 101 = { time_add := 2, flag := true } ∧
    ∀ n : ℕ, pingpong_iter (n + 101) = pingpong_iter (n + 1) := by
  refine ⟨by decide, by decide, by decide, by decide, fun n => ?_⟩
  induction n with
  | zero => decide
  | succ k ih =>
    have h1 : k + 1 + 101 = (k + 101) + 1 := by omega
    rw [h1]
    show pingpong_step (pingpong_iter (k + 101)) = pingpong_iter (k + 1 + 1)
    rw [ih]
    rfl

/-- Length of a list made of consecutive pairs: two entries per index. -/
lemma range_pairs_length {α : Type} (f g : ℕ → α) (k : ℕ) :
    ((List.range k).flatMap (fun i => [f i, g i])).length = 2 * k := by
  induction k with
  | zero => simp
  | succ m ih =>
    rw [List.range_succ, List.flatMap_append]
    simp only [List.length_append, ih, List.flatMap_cons, List.flatMap_nil]
    simp
    omega

/-- Entries of a list made of consecutive pairs. -/
lemma range_pairs_get {α : Type} (f g : ℕ → α) (k i : ℕ) (h : i < k) :
    ((List.range k).flatMap (fun j => [f j, g j]))[2 * i]? = some (f i) ∧
    ((List.range k).flatMap (fun j => [f j, g j]))[2 * i + 1]? = some (g i) := by
  induction k with
  | zero => omega
  | succ m ih =>
    rw [List.range_succ, List.flatMap_append]
    rcases Nat.lt_succ_iff_lt_or_eq.mp h with h' | rfl
    · have hlen : 2 * i + 1 < ((List.range m).flatMap (fun j => [f j, g j])).length := by
        rw [range_pairs_length]; omega
      rw [List.getElem?_append_left (by omega), List.getElem?_append_left hlen]
      exact ih h'
    · have hlen : ((List.range i).flatMap (fun j => [f j, g j])).length = 2 * i :=
        range_pairs_length f g i
      constructor
      · rw [List.getElem?_append_right hlen.le, hlen]
        simp
      · rw [List.getElem?_append_right (by omega), hlen]
        simp

/-- C10: for `func_detail = n ≥ 3`, `generate_plot2d_data` returns exactly
`2*(n-2)` vertices — one two-vertex segment per consecutive sample pair
`(i, i+1)` with `i < n-2`, so the segment between the last two sample points
is never emitted (the vertex list ends at position `2*(n-2)`) — and the
colors and indices have the same length `2*(n-2)`. -/
theorem plot2d_data_counts (xs ys : ℕ → ℚ) (n : ℕ) (_h : 3 ≤ n) :
    (plot2d_vertices xs ys n).length = 2 * (n - 2) ∧
    (plot2d_colors xs ys n).length = 2 * (n - 2) ∧
    (plot2d_indices xs ys n).length = 2 * (n - 2) ∧
    (∀ i, i < n - 2 →
      (plot2d_vertices xs ys n)[2 * i]? = some [xs i, ys i, 0, 1] ∧
      (plot2d_vertices xs ys n)[2 * i + 1]? = some [xs (i + 1), ys (i + 1), 0, 1]) ∧
    (plot2d_vertices xs ys n)[2 * (n - 2)]? = none := by
  have hv : (plot2d_vertices xs ys n).length = 2 * (n - 2) :=
    range_pairs_length (fun i => [xs i, ys i, 0, 1])
      (fun i => [xs (i + 1), ys (i + 1), 0, 1]) (n - 2)
  refine ⟨hv, ?_, ?_, ?_, ?_⟩
  · rw [plot2d_colors, List.length_replicate, hv]
  · rw [plot2d_indices, List.length_range, hv]
  · intro i hi
    exact range_pairs_get (fun i => [xs i, ys i, 0, 1])
      (fun i => [xs (i + 1), ys (i + 1), 0, 1]) (n - 2) i hi
  · exact List.getElem?_eq_none (le_of_eq hv)

/-- Witness for C10 at `func_detail = 4` and concrete samples. -/
theorem plot2d_data_counts_witness :
    3 ≤ 4 ∧ (plot2d_vertices (fun i => (i : ℚ)) (fun i => (i : ℚ) + 1) 4).length = 2 * (4 - 2) :=
  ⟨by decide, (plot2d_data_counts (fun i => (i : ℚ)) (fun i => (i : ℚ) + 1) 4 (by decide)).1⟩

/-- C6 counterexample: attaching two vertex-attribute arrays with different
row counts (one row versus two rows) to a fresh `RenderMesh` is not rejected
or flagged — the appends succeed and the resulting mesh violates the
same-row-count invariant. -/
theorem renderMesh_mismatch_counterexample :
    (attach_vertex_attributes
        (attach_vertex_attributes (renderMesh_init_lists [] []) [[0, 0, 0, 1]])
        [[0, 0, 0, 1], [1, 0, 0, 1]]).vertex_attributes
      = [[[0, 0, 0, 1]], [[0, 0, 0, 1], [1, 0, 0, 1]]] ∧
    ¬ sameRowCount
        (attach_vertex_attributes
          (attach_vertex_attributes (renderMesh_init_lists [] []) [[0, 0, 0, 1]])
          [[0, 0, 0, 1], [1, 0, 0, 1]]) := by
  constructor
  · rfl
  · intro hs
    have h12 := hs [[0, 0, 0, 1]]
      (by simp [attach_vertex_attributes, renderMesh_init_lists])
      [[0, 0, 0, 1], [1, 0, 0, 1]]
      (by simp [attach_vertex_attributes, renderMesh_init_lists])
    simp at h12

/-- C6 amended: attaching a vertex-attribute array never validates row
counts — `vertex_attributes.append` succeeds unconditionally, and after
attaching two arrays of different row counts both are present and the mesh
violates the same-row-count invariant (the invariant is not enforced at
attachment time). -/
theorem attach_mismatched_rows_accepted (m : RenderMeshState)
    (a b : List (List ℚ)) (hab : a.length ≠ b.length) :
    a ∈ (attach_vertex_attributes (attach_vertex_attributes m a) b).vertex_attributes ∧
    b ∈ (attach_vertex_attributes (attach_vertex_attributes m a) b).vertex_attributes ∧
    ¬ sameRowCount (attach_vertex_attributes (attach_vertex_attributes m a) b) := by
  refine ⟨?_, ?_, ?_⟩
  · simp [attach_vertex_attributes]
  · simp [attach_vertex_attributes]
  · intro hs
    exact hab (hs a (by simp [attach_vertex_attributes]) b
      (by simp [attach_vertex_attributes]))

/-- Witness for the amended C6 statement on a concrete mesh. -/
theorem attach_mismatched_rows_accepted_witness :
    ([[(0 : ℚ), 0, 0, 1]] : List (List ℚ)).length ≠
      ([[(0 : ℚ), 0, 0, 1], [1, 0, 0, 1]] : List (List ℚ)).length ∧
    ¬ sameRowCount
        (attach_vertex_attributes
          (attach_vertex_attributes (renderMesh_init_lists [[[1, 1, 1, 1]]] []) [[0, 0, 0, 1]])
          [[0, 0, 0, 1], [1, 0, 0, 1]]) :=
  ⟨by decide,
   (attach_mismatched_rows_accepted (renderMesh_init_lists [[[1, 1, 1, 1]]] [])
      [[0, 0, 0, 1]] [[0, 0, 0, 1], [1, 0, 0, 1]] (by decide)).2.2⟩

/-- C9: every freshly constructed component — the `Component` base fields and
the `BasicTransform`, `Camera`, `RenderMesh`, `Keyframe` and
`AnimationComponents` variants — has its parent reference set to the object
itself (`some self`), which is not the `None` sentinel. -/
theorem fresh_component_parent_self (self uuid1 : ℕ) (className : String)
    (name type : Option String) (id : Option ℕ) (trs : Option Mat4Q)
    (projMatrix : Option Mat4Q) (left right bottom top near far : ℚ)
    (va : List (List (List ℚ))) (vi : List (List ℕ))
    (array_MM : List (List Mat4Q)) (bones : List ℚ) (alpha tempo time_add : ℚ)
    (astart : Bool) (anim_keys : ℕ) (time : List ℚ) (flag : Bool)
    (inter : String) :
    (component_init self className name type id uuid1).parent = some self ∧
    (basicTransform_init self name type id uuid1 trs).base.parent = some self ∧
    (camera_init self projMatrix name type id uuid1
        left right bottom top near far).base.parent = some self ∧
    (renderMesh_init self name type id uuid1 va vi).1.parent = some self ∧
    (keyframe_init self name type id uuid1 array_MM).base.parent = some self ∧
    (animationComponents_init self name type id uuid1 bones alpha tempo
        time_add astart anim_keys time flag inter).base.parent = some self ∧
    (some self : Option ℕ) ≠ none :=
  ⟨rfl, rfl, rfl, rfl, rfl, rfl, by simp⟩

/-- The matrix fields written by `BasicTransform.update` and the fields it
leaves alone. -/
lemma bt_update_fields (c : BasicTransformState) (kw : Kwargs) :
    (basicTransform_update c kw).l2world = (kw btArg1).getD c.l2world ∧
    (basicTransform_update c kw).trs = (kw btArg2).getD c.trs ∧
    (basicTransform_update c kw).l2cam = (kw btArg3).getD c.l2cam ∧
    (basicTransform_update c kw).base = c.base := by
  unfold basicTransform_update
  cases kw btArg1 <;> cases kw btArg2 <;> cases kw btArg3 <;> simp

/-- `BasicTransform.update` depends only on the three recognized keys. -/
lemma bt_update_congr (c : BasicTransformState) (kw kw' : Kwargs)
    (h1 : kw' btArg1 = kw btArg1) (h2 : kw' btArg2 = kw btArg2)
    (h3 : kw' btArg3 = kw btArg3) :
    basicTransform_update c kw' = basicTransform_update c kw := by
  unfold basicTransform_update
  rw [h1, h2, h3]

/-- The matrix field written by `Camera.update` and the fields it leaves
alone. -/
lemma cam_update_fields (c : CameraState) (kw : Kwargs) :
    (camera_update c kw).root2cam = (kw camArg1).getD c.root2cam ∧
    (camera_update c kw).projMat = c.projMat ∧
    (camera_update c kw).base = c.base := by
  unfold camera_update
  cases kw camArg1 <;> simp

/-- `Camera.update` depends only on the key "root2cam". -/
lemma cam_update_congr (c : CameraState) (kw kw' : Kwargs)
    (h1 : kw' camArg1 = kw camArg1) :
    camera_update c kw' = camera_update c kw := by
  unfold camera_update
  rw [h1]

/-- C8: `BasicTransform.update` stores the values supplied under the
recognized keys "l2world", "trs", "l2cam" into exactly those matrix fields
(an absent key leaves its field at its old value), leaves every other field
of the component unchanged, and ignores unrecognized keys (the result
depends only on the three recognized keys); `Camera.update` does the same
for its single recognized key "root2cam", leaving the projection matrix and
all other fields unchanged. -/
theorem update_recognized_keys (c : BasicTransformState) (kw : Kwargs)
    (cam : CameraState) (kw2 : Kwargs) :
    (basicTransform_update c kw).l2world = (kw btArg1).getD c.l2world ∧
    (basicTransform_update c kw).trs = (kw btArg2).getD c.trs ∧
    (basicTransform_update c kw).l2cam = (kw btArg3).getD c.l2cam ∧
    (basicTransform_update c kw).base = c.base ∧
    (∀ kw' : Kwargs, kw' btArg1 = kw btArg1 → kw' btArg2 = kw btArg2 →
      kw' btArg3 = kw btArg3 →
      basicTransform_update c kw' = basicTransform_update c kw) ∧
    (camera_update cam kw2).root2cam = (kw2 camArg1).getD cam.root2cam ∧
    (camera_update cam kw2).projMat = cam.projMat ∧
    (camera_update cam kw2).base = cam.base ∧
    (∀ kw2' : Kwargs, kw2' camArg1 = kw2 camArg1 →
      camera_update cam kw2' = camera_update cam kw2) :=
  ⟨(bt_update_fields c kw).1, (bt_update_fields c kw).2.1,
   (bt_update_fields c kw).2.2.1, (bt_update_fields c kw).2.2.2,
   fun kw' h1 h2 h3 => bt_update_congr c kw kw' h1 h2 h3,
   (cam_update_fields cam kw2).1, (cam_update_fields cam kw2).2.1,
   (cam_update_fields cam kw2).2.2,
   fun kw2' h1 => cam_update_congr cam kw2 kw2' h1⟩

/-- Witness for C8: a dict with only an unrecognized key acts exactly like
the empty dict on concrete components. -/
theorem update_recognized_keys_witness :
    basicTransform_update btDemo kwUnrecognized = basicTransform_update btDemo kwEmpty ∧
    camera_update camDemo kwUnrecognized = camera_update camDemo kwEmpty :=
  ⟨(update_recognized_keys btDemo kwEmpty camDemo kwEmpty).2.2.2.2.1
      kwUnrecognized rfl rfl rfl,
   (update_recognized_keys btDemo kwEmpty camDemo kwEmpty).2.2.2.2.2.2.2.2
      kwUnrecognized rfl⟩

/-- C3: `accept` with a system object that carries no handler method for the
component's variant is a silent no-op — the component and the system are
both left unchanged — for every component variant of Component.py:
`BasicTransform`, `Camera` and `RenderMesh` dispatch only to the absent
handlers, while `Keyframe`, `AnimationComponents` and
`BasicTransformDecorator` have `pass` bodies unconditionally. -/
theorem accept_missing_handler_noop {C S : Type} (sys : SystemHandlers C S)
    (c : C) (s : S) :
    (sys.apply2GATransform = none → sys.apply2BasicTransform = none →
      sys.applyCamera2BasicTransform = none →
      basicTransform_accept sys c s = (c, s)) ∧
    (sys.apply2Camera = none → camera_accept sys c s = (c, s)) ∧
    (sys.apply2RenderMesh = none → renderMesh_accept sys c s = (c, s)) ∧
    keyframe_accept sys c s = (c, s) ∧
    animationComponents_accept sys c s = (c, s) ∧
    basicTransformDecorator_accept sys c s = (c, s) := by
  refine ⟨fun h1 h2 h3 => ?_, fun h => ?_, fun h => ?_, rfl, rfl, rfl⟩
  · simp [basicTransform_accept, dispatch, h1, h2, h3]
  · simp [camera_accept, dispatch, h]
  · simp [renderMesh_accept, dispatch, h]

/-- Witness for C3 on a concrete handlerless system. -/
theorem accept_missing_handler_noop_witness :
    sysNone.apply2GATransform = none ∧
    basicTransform_accept sysNone 0 0 = (0, 0) ∧
    camera_accept sysNone 0 0 = (0, 0) ∧
    renderMesh_accept sysNone 0 0 = (0, 0) :=
  ⟨rfl, (accept_missing_handler_noop sysNone 0 0).1 rfl rfl rfl,
   (accept_missing_handler_noop sysNone 0 0).2.1 rfl,
   (accept_missing_handler_noop sysNone 0 0).2.2.1 rfl⟩

/-- C7: the drain idiom terminates for a child list of any length N ≥ 0 (the
drain function is total, by descent on the child count) and leaves the
entity with zero children; on the result, `getChild(1)` returns the
none-sentinel, which is the loop's exit condition. -/
theorem drain_children_empties {A : Type} [DecidableEq A] (children : List A) :
    remove_entity_children children = [] ∧
    (remove_entity_children children).length = 0 ∧
    entity_getChild (remove_entity_children children) 1 = none := by
  have hmain : remove_entity_children children = [] := by
    induction children using remove_entity_children.induct with
    | case1 children hc =>
      rw [remove_entity_children, hc]
      simp only [entity_getChild] at hc
      split at hc
      · cases hc
      · rename_i h
        have hz : children.length = 0 := by omega
        exact List.length_eq_zero.mp hz
    | case2 children c hc ih =>
      rw [remove_entity_children, hc]
      exact ih
  refine ⟨hmain, ?_, ?_⟩
  · rw [hmain]; rfl
  · rw [hmain]; rfl

/-- Members of a propagated child list are propagated child entities. -/
lemma mem_propagateList {m : Mat4Q} {l : List SceneTree} {c : PropTree}
    (hc : c ∈ propagateList m l) : ∃ e ∈ l, c = propagate m e := by
  induction l with
  | nil => cases hc
  | cons x xs ih =>
    rw [propagateList] at hc
    rcases List.mem_cons.mp hc with h | h
    · exact ⟨x, List.mem_cons_self x xs, h⟩
    · obtain ⟨e, he, hce⟩ := ih h
      exact ⟨e, List.mem_cons_of_mem x he, hce⟩

/-- The direct children of a propagated node carry the product of that
node's computed matrix and their own TRS. -/
lemma propagate_children_law (m : Mat4Q) (e : SceneTree) :
    ∀ c ∈ (propagate m e).childrenOf,
      c.l2worldOf = (propagate m e).l2worldOf * c.trsOf := by
  intro c hc
  cases e with
  | node trs cs =>
    have hc' : c ∈ propagateList (m * trs) cs := hc
    obtain ⟨ec, _, rfl⟩ := mem_propagateList hc'
    cases ec with
    | node t' cs' => rfl

/-- Every node occurring in a propagated tree is itself a propagated
subtree. -/
lemma occurs_in_propagate {s t : PropTree} (h : PropTree.Occurs s t) :
    ∀ m e, t = propagate m e → ∃ m' e', s = propagate m' e' := by
  induction h with
  | refl => exact fun m e he => ⟨m, e, he⟩
  | child hc _hocc ih =>
    intro m e he
    cases e with
    | node trs cs =>
      subst he
      obtain ⟨ec, _, hceq⟩ :=
        mem_propagateList (show _ ∈ propagateList (m * trs) cs from hc)
      exact ih (m * trs) ec hceq

/-- C1: after one full pre-order traversal, the root entity's local-to-world
matrix equals its own local TRS, and every entity occurring in the traversed
tree gives each of its children a local-to-world matrix equal to the product
of the parent's already-computed local-to-world matrix and the child's local
TRS matrix. -/
theorem transform_propagation (root : SceneTree) :
    (propagateRoot root).l2worldOf = root.trsOf ∧
    ∀ p, PropTree.Occurs p (propagateRoot root) →
      ∀ c ∈ p.childrenOf, c.l2worldOf = p.l2worldOf * c.trsOf := by
  constructor
  · cases root with
    | node trs cs =>
      show (1 : Mat4Q) * trs = trs
      exact one_mul trs
  · intro p hocc c hc
    obtain ⟨m', e', rfl⟩ := occurs_in_propagate hocc 1 root rfl
    exact propagate_children_law m' e' c hc

/-- Witness for C1 on the two-entity demonstration scene. -/
theorem transform_propagation_witness :
    PropTree.Occurs (propagateRoot demoRoot) (propagateRoot demoRoot) ∧
    propagate ((1 : Mat4Q) * 1) demoChild ∈ (propagateRoot demoRoot).childrenOf ∧
    (propagate ((1 : Mat4Q) * 1) demoChild).l2worldOf =
      (propagateRoot demoRoot).l2worldOf * (propagate ((1 : Mat4Q) * 1) demoChild).trsOf := by
  have hmem : propagate ((1 : Mat4Q) * 1) demoChild ∈ (propagateRoot demoRoot).childrenOf :=
    List.mem_singleton.mpr rfl
  exact ⟨PropTree.Occurs.refl _, hmem,
    (transform_propagation demoRoot).2 _ (PropTree.Occurs.refl _) _ hmem⟩

/-- C4 counterexample: with the ordered boundaries time = [0, 0, 0] and the
reachable accumulator value 0 (the initial value), `animation_loop` invokes
`animation_for_loop` on the first segment, but no blend factor in [0, 1] is
produced: the division `(time_add - t0)/abs(t1 - t0)` divides by zero
(Python raises `ZeroDivisionError`). -/
theorem alpha_degenerate_counterexample :
    ((0 : ℚ) ≤ 0 ∧ (0 : ℚ) ≤ 0) ∧ seg1_invoked 0 0 0 ∧
    alpha_of 0 0 0 = none ∧
    ¬ ∃ a : ℚ, alpha_of 0 0 0 = some a ∧ 0 ≤ a ∧ a ≤ 1 := by
  refine ⟨⟨le_refl 0, le_refl 0⟩, ⟨le_refl 0, le_refl 0⟩, ?_, ?_⟩
  · simp [alpha_of]
  · rintro ⟨a, ha, -⟩
    simp [alpha_of] at ha

/-- C4 amended: for every accumulator value and every configuration whose
first two time boundaries are strictly ordered (t0 < t1, with t1 ≤ t2),
whenever `animation_loop` invokes `animation_for_loop` — on either segment —
the blend factor `alpha = (time_add - t0)/abs(t1 - t0)` it computes is
defined and lies in the closed interval [0, 1]. -/
theorem alpha_in_unit_interval (time_add t0 t1 t2 : ℚ) (k3 : Bool)
    (h01 : t0 < t1) (h12 : t1 ≤ t2) :
    (seg1_invoked time_add t0 t1 →
      ∃ a : ℚ, alpha_of time_add t0 t1 = some a ∧ 0 ≤ a ∧ a ≤ 1) ∧
    (seg2_invoked time_add t1 t2 k3 →
      ∃ a : ℚ, alpha_of time_add t1 t2 = some a ∧ 0 ≤ a ∧ a ≤ 1) := by
  constructor
  · intro hg
    simp only [seg1_invoked] at hg
    obtain ⟨hl, hu⟩ := hg
    have hpos : 0 < t1 - t0 := sub_pos.mpr h01
    have hne : ¬ |t1 - t0| = 0 := by
      rw [abs_eq_zero]
      exact sub_ne_zero.mpr h01.ne'
    refine ⟨(time_add - t0) / |t1 - t0|, ?_, ?_, ?_⟩
    · rw [alpha_of, if_neg hne]
    · exact div_nonneg (sub_nonneg.mpr hl) (abs_nonneg _)
    · rw [abs_of_pos hpos]
      exact (div_le_one hpos).mpr (by linarith)
  · intro hg
    simp only [seg2_invoked] at hg
    obtain ⟨hl, hu, -⟩ := hg
    have h12x : t1 < t2 := lt_of_lt_of_le hl hu
    have hpos : 0 < t2 - t1 := sub_pos.mpr h12x
    have hne : ¬ |t2 - t1| = 0 := by
      rw [abs_eq_zero]
      exact sub_ne_zero.mpr h12x.ne'
    refine ⟨(time_add - t1) / |t2 - t1|, ?_, ?_, ?_⟩
    · rw [alpha_of, if_neg hne]
    · exact div_nonneg (sub_nonneg.mpr hl.le) (abs_nonneg _)
    · rw [abs_of_pos hpos]
      exact (div_le_one hpos).mpr (by linarith)

/-- Witness for amended C4 at the source's default configuration
time = [0, 100, 200] and accumulator 50. -/
theorem alpha_in_unit_interval_witness :
    ((0 : ℚ) < 100 ∧ (100 : ℚ) ≤ 200) ∧ seg1_invoked 50 0 100 ∧
    ∃ a : ℚ, alpha_of 50 0 100 = some a ∧ 0 ≤ a ∧ a ≤ 1 := by
  have hg : seg1_invoked 50 0 100 := by
    simp only [seg1_invoked]
    norm_num
  exact ⟨⟨by norm_num, by norm_num⟩, hg,
    (alpha_in_unit_interval 50 0 100 200 false (by norm_num) (by norm_num)).1 hg⟩

/-- Linear quaternion interpolation at parameter 0 returns the first
quaternion exactly. -/
lemma quaternion_lerp_zero (q1 q2 : Quat) : quaternion_lerp q1 q2 0 = q1 := by
  funext i
  simp [quaternion_lerp]

/-- Linear quaternion interpolation at parameter 1 returns the second
quaternion exactly. -/
lemma quaternion_lerp_one (q1 q2 : Quat) : quaternion_lerp q1 q2 1 = q2 := by
  funext i
  simp [quaternion_lerp]

/-- Spherical-linear interpolation at parameter 0 returns the first
quaternion exactly. -/
lemma quaternion_slerp_zero (q1 q2 : Quat) : quaternion_slerp q1 q2 0 = q1 := by
  unfold quaternion_slerp
  split
  · exact quaternion_lerp_zero q1 q2
  · rename_i h
    funext i
    simp [div_self h]

/-- Spherical-linear interpolation at parameter 1 returns the second
quaternion exactly. -/
lemma quaternion_slerp_one (q1 q2 : Quat) : quaternion_slerp q1 q2 1 = q2 := by
  unfold quaternion_slerp
  split
  · exact quaternion_lerp_one q1 q2
  · rename_i h
    funext i
    simp [div_self h]

/-- Translation interpolation at parameter 0 returns the first vector
exactly. -/
lemma anim_lerp_zero (a b : Vec3) : anim_lerp a b 0 = a := by
  funext i
  simp [anim_lerp]

/-- Translation interpolation at parameter 1 returns the second vector
exactly. -/
lemma anim_lerp_one (a b : Vec3) : anim_lerp a b 1 = b := by
  funext i
  simp [anim_lerp]

/-- C5: in both interpolation modes (any `inter` string, covering the LERP
branch and the SLERP branch), when the accumulator equals the segment start
(so alpha = 0) every pose matrix written to MM carries exactly keyframe1's
rotation (its quaternion-decomposed rotation, rendered to a rotation matrix)
and keyframe1's translation; when the accumulator equals the segment end
(so alpha = 1) it carries exactly keyframe2's rotation and translation. -/
theorem pose_interpolation_endpoints (inter : String) {n : ℕ}
    (k1 k2 : Fin n → Mat4R) (t0 t1 : ℝ) (h : t0 < t1) :
    (∀ i, animation_for_loop_MM inter t0 t0 t1 k1 k2 i =
      set_pose 1 (to_rotation_matrix (rotate_of (k1 i))) (translate_of (k1 i))) ∧
    (∀ i, animation_for_loop_MM inter t1 t0 t1 k1 k2 i =
      set_pose 1 (to_rotation_matrix (rotate_of (k2 i))) (translate_of (k2 i))) := by
  have h0 : (t0 - t0) / |t1 - t0| = 0 := by simp
  have h1 : (t1 - t0) / |t1 - t0| = 1 := by
    rw [abs_of_pos (sub_pos.mpr h)]
    exact div_self (sub_ne_zero.mpr h.ne')
  constructor
  · intro i
    simp only [animation_for_loop_MM, h0]
    by_cases hL : inter = "LERP"
    · simp [hL, quaternion_lerp_zero, anim_lerp_zero]
    · simp [hL, quaternion_slerp_zero, anim_lerp_zero]
  · intro i
    simp only [animation_for_loop_MM, h1]
    by_cases hL : inter = "LERP"
    · simp [hL, quaternion_lerp_one, anim_lerp_one]
    · simp [hL, quaternion_slerp_one, anim_lerp_one]

/-- Witness for C5 in SLERP mode on a one-bone identity keyframe pair over
the segment [0, 100]. -/
theorem pose_interpolation_endpoints_witness :
    (0 : ℝ) < 100 ∧
    ∀ i : Fin 1, animation_for_loop_MM interSLERP 0 0 100
        (fun _ => 1) (fun _ => 1) i =
      set_pose 1 (to_rotation_matrix (rotate_of (1 : Mat4R)))
        (translate_of (1 : Mat4R)) :=
  ⟨by norm_num,
   (pose_interpolation_endpoints interSLERP (fun _ => (1 : Mat4R))
      (fun _ => 1) 0 100 (by norm_num)).1⟩

end Elements
